import Mathlib

/-!
Verification of the hot-reloadable template rendering subsystem of wenzetu
(src/templates.rs): the template path configuration, the error tracker, the
lazily built template store with its autoescape policy, the debounced
watch callback, and the public render pipeline.

The external template engine (the Tera crate) and the file-watch debouncer
(the tera-hot-reload crate) are third-party collaborators whose semantics are
delegated by the repository; their contracts are modelled from the spec where
noted, while everything in templates.rs itself is embedded directly from the
source.
-/

namespace Wenzetu

/-- Modelled from the spec: a template context value, the tagged union of
primitives/strings handled by the external engine (tera::Value restricted to
the variants the claims exercise). -/
inductive Value where
  | vStr (s : String)
  | vInt (n : Int)
  | vBool (b : Bool)
deriving Repr, DecidableEq

/-- How the engine stringifies a context value when splicing it into output. -/
def Value.display : Value → String
  | .vStr s => s
  | .vInt n => toString n
  | .vBool b => if b then "true" else "false"

/-- A render context: an ordered mapping from variable name to value
(tera::Context). -/
abbrev Ctx := List (String × Value)

/-- Modelled from the spec: a compiled template body of the external engine,
a sequence of literal chunks and variable substitutions. -/
inductive Chunk where
  | lit (s : String)
  | var (v : String)
deriving Repr, DecidableEq

/-- A compiled template is a list of chunks. -/
abbrev Template := List Chunk

/-- First-match association lookup, used both for context variables and for
the compiled template set. -/
def assocLookup {α : Type} : List (String × α) → String → Option α
  | [], _ => none
  | (k, v) :: rest, key => if k = key then some v else assocLookup rest key

/-- html_escape::encode_text on one character: escapes the three
text-significant characters ampersand, less-than and greater-than. -/
def encodeTextChar (c : Char) : String :=
  if c = '&' then "&amp;"
  else if c = '<' then "&lt;"
  else if c = '>' then "&gt;"
  else String.singleton c

/-- html_escape::encode_text, used by render for all diagnostic pages. -/
def encodeText (s : String) : String :=
  String.join (s.data.map encodeTextChar)

/-- The apostrophe character (U+0027). -/
def apos : Char := Char.ofNat 39

/-- Modelled from the spec: the external engine's HTML auto-escape filter on
one character (Tera escape_html), escaping ampersand, angle brackets, quotes
and slash. -/
def teraEscapeChar (c : Char) : String :=
  if c = '&' then "&amp;"
  else if c = '<' then "&lt;"
  else if c = '>' then "&gt;"
  else if c = '"' then "&quot;"
  else if c = apos then "&#x27;"
  else if c = '/' then "&#x2F;"
  else String.singleton c

/-- Modelled from the spec: the external engine's HTML auto-escape filter. -/
def teraEscapeHtml (s : String) : String :=
  String.join (s.data.map teraEscapeChar)

/-- Boolean string suffix test (Rust str::ends_with). -/
def strEndsWith (s sfx : String) : Bool :=
  List.isSuffixOf sfx.data s.data

/-- The compiled template set owned by the store: the glob pattern it was
built from, the compiled templates, and the list of file-extension suffixes
whose output is auto-escaped (a Tera instance, restricted to the fields the
subsystem touches). -/
structure Store where
  glob : String
  templates : List (String × Template)
  autoescape : List String
deriving Repr, DecidableEq

/-- The fixed auto-escape suffix list installed by the store builder
(templates.rs line 58). -/
def autoescapeExts : List String := [".html", ".htm", ".xml", ".svg"]

/-- Modelled from the spec: the external engine's compiler, abstracted as a
function from a glob pattern to either a compiled template set or a failure
message (Tera::new). Theorems quantify over it; witnesses instantiate it. -/
structure Engine where
  compile : String → Except String (List (String × Template))

/-- Whether output rendered into template `name` is auto-escaped: the name
ends with one of the configured suffixes (Tera autoescape check). -/
def shouldEscape (st : Store) (name : String) : Bool :=
  st.autoescape.any (fun ext => strEndsWith name ext)

/-- Modelled from the spec: rendering one chunk against a context; a missing
variable is a runtime render error. -/
def renderChunk (esc : Bool) (ctx : Ctx) : Chunk → Except String String
  | .lit s => .ok s
  | .var v =>
    match assocLookup ctx v with
    | some val => .ok (if esc then teraEscapeHtml val.display else val.display)
    | none => .error ("Variable " ++ v ++ " not found in context")

/-- Modelled from the spec: rendering a chunk sequence, failing on the first
failing chunk. -/
def renderChunks (esc : Bool) (ctx : Ctx) : List Chunk → Except String String
  | [] => .ok ""
  | c :: rest => do
    let h ← renderChunk esc ctx c
    let t ← renderChunks esc ctx rest
    .ok (h ++ t)

/-- Modelled from the spec: the engine-level render (Tera::render): look the
template up in the compiled set (a missing name is a NotFound error) and
render it against the context, auto-escaping by extension policy. -/
def Store.render (st : Store) (name : String) (ctx : Ctx) : Except String String :=
  match assocLookup st.templates name with
  | none => .error ("Template " ++ name ++ " not found")
  | some t => renderChunks (shouldEscape st name) ctx t

/-- The process-wide mutable state of templates.rs: TEMPLATE_PATH,
TERA_INIT_ERROR, the lazily built TEMPLATES store (none before first access),
and a poison flag for each of the three RwLocks, since the source branches on
lock acquisition results. -/
structure AppState where
  templatePath : String
  teraInitError : Option String
  templates : Option Store
  pathPoisoned : Bool
  errPoisoned : Bool
  teraPoisoned : Bool
deriving Repr, DecidableEq

/-- The state at process start: empty path, no error, store not yet built,
no lock poisoned. -/
def initialState : AppState :=
  { templatePath := "", teraInitError := none, templates := none,
    pathPoisoned := false, errPoisoned := false, teraPoisoned := false }

/-- init_templates (templates.rs lines 27-32): write the path if the lock is
healthy, silently do nothing otherwise. -/
def init_templates (s : AppState) (path : String) : AppState :=
  if s.pathPoisoned then s else { s with templatePath := path }

/-- get_template_path (templates.rs lines 35-42): the configured path when
readable and nonempty, the built-in default pattern otherwise. -/
def get_template_path (s : AppState) : String :=
  if s.pathPoisoned then "templates/**/*"
  else if s.templatePath = "" then "templates/**/*"
  else s.templatePath

/-- The empty-but-usable store the builder falls back to when compilation
fails (Tera::default with autoescape configured). Modelled from the spec: the
fallback keeps the configured glob so future successful reloads can recover. -/
def emptyFallback (p : String) : Store :=
  { glob := p, templates := [], autoescape := autoescapeExts }

/-- The TEMPLATES lazy initializer (templates.rs lines 45-58): on first
access compile the configured pattern; on failure record the message in the
error tracker (if its lock is healthy) and fall back to an empty store; in
either case install the autoescape suffix list. Returns the store together
with the updated state; later accesses return the already built store. -/
def getOrInit (e : Engine) (s : AppState) : Store × AppState :=
  match s.templates with
  | some st => (st, s)
  | none =>
    let p := get_template_path s
    match e.compile p with
    | .ok ts =>
      let st : Store := { glob := p, templates := ts, autoescape := autoescapeExts }
      (st, { s with templates := some st })
    | .error err =>
      let st := emptyFallback p
      let s1 := if s.errPoisoned then s else { s with teraInitError := some err }
      (st, { s1 with templates := some st })

/-- The message a poisoned RwLock displays (std::sync::PoisonError). -/
def poisonedLockMsg : String := "poisoned lock: another task failed inside"

/-- The diagnostic page returned when the error tracker holds a message
(templates.rs lines 109-112). -/
def initErrorPage (msg : String) : String :=
  "<!DOCTYPE html><html><body><h1>Template Error</h1><pre>" ++ encodeText msg
    ++ "</pre></body></html>"

/-- The diagnostic page returned when the engine render fails
(templates.rs lines 120-125). -/
def renderErrorPage (name err : String) : String :=
  "<!DOCTYPE html><html><body><h1>Template Render Error</h1><p>Template: "
    ++ encodeText name ++ "</p><pre>" ++ encodeText err ++ "</pre></body></html>"

/-- The diagnostic page returned when the store lock is poisoned
(templates.rs lines 131-134). -/
def lockErrorPage (msg : String) : String :=
  "<!DOCTYPE html><html><body><h1>Template Lock Error</h1><pre>" ++ encodeText msg
    ++ "</pre></body></html>"

/-- The public render entry point (templates.rs lines 102-137). Reading
TEMPLATES forces the lazy initializer, so render returns the possibly updated
state alongside the string. A poisoned store lock yields the lock-error page;
a recorded initialization error (readable through a healthy error lock)
yields the init-error page without touching the template; otherwise the
engine result is returned verbatim on success and as the render-error page on
failure. -/
def render (e : Engine) (s : AppState) (name : String) (ctx : Ctx) : String × AppState :=
  if (getOrInit e s).2.teraPoisoned then (lockErrorPage poisonedLockMsg, (getOrInit e s).2)
  else
    match (getOrInit e s).2.errPoisoned, (getOrInit e s).2.teraInitError with
    | false, some m => (initErrorPage m, (getOrInit e s).2)
    | _, _ =>
      match ((getOrInit e s).1).render name ctx with
      | .ok h => (h, (getOrInit e s).2)
      | .error err => (renderErrorPage name err, (getOrInit e s).2)

/-- Modelled from the spec: Tera::full_reload recompiles the entire set from
the stored glob from scratch; on success the compiled set is replaced, on
failure the previous set is untouched. -/
def fullReloadSt (e : Engine) (st : Store) : Except String Store :=
  match e.compile st.glob with
  | .ok ts => .ok { st with templates := ts }
  | .error m => .error m

/-- The debounced watch callback (templates.rs lines 68-81): under a healthy
store lock, run full_reload; on failure record the message in the error
tracker, on success clear the tracker; in every case (including a poisoned
store lock) invoke the live reloader, reported as the returned Bool. -/
def watchCallback (e : Engine) (s : AppState) : AppState × Bool :=
  let s1 :=
    if s.teraPoisoned then s
    else
      match s.templates with
      | none => s
      | some st =>
        match fullReloadSt e st with
        | .ok st2 =>
          let s2 := { s with templates := some st2 }
          if s.errPoisoned then s2 else { s2 with teraInitError := none }
        | .error err =>
          if s.errPoisoned then s else { s with teraInitError := some err }
  (s1, true)

/-- The debounce quiet period in milliseconds (templates.rs line 82,
Duration::from_millis(100)). -/
def watchDebounceWindowMs : Nat := 100

/-- Modelled from the spec: the debounced watcher (the external
tera-hot-reload crate) restarts a countdown of length `w` at every event and
fires one reload when the countdown elapses with no further event. On a
time-ordered event list, the reload fires after an event exactly when the
next event is at least `w` later (or the event is the last); this counts the
reloads of the whole timeline. -/
def debounceReloads (w : Nat) : List Nat → Nat
  | [] => 0
  | [_] => 1
  | a :: b :: rest => (if w ≤ b - a then 1 else 0) + debounceReloads w (b :: rest)

/-- A small concrete compiled set used by witnesses: an escaped HTML page, an
unescaped text page and a literal-only page. -/
def demoStore : Store :=
  { glob := "templates/**/*",
    templates := [("page.html", [Chunk.var "v"]), ("page.txt", [Chunk.var "v"]),
                  ("plain.html", [Chunk.lit "hello"])],
    autoescape := autoescapeExts }

/-- A healthy state whose store is already built, used by witnesses. -/
def builtState : AppState := { initialState with templates := some demoStore }

/-- An engine whose compilation always fails, used by witnesses. -/
def badEngine : Engine := ⟨fun _ => .error "oops"⟩

/-- An engine whose compilation always succeeds with one template, used by
witnesses. -/
def goodEngine : Engine := ⟨fun _ => .ok [("page.html", [Chunk.var "v"])]⟩

/-- C1: for every engine, state, template name and context, render returns a
string and never an unhandled failure: the result is the lock-error page, the
init-error page, the render-error page for the requested name, or the
successful engine output returned verbatim. -/
theorem c1_render_total_diagnostics (e : Engine) (s : AppState) (name : String) (ctx : Ctx) :
    (render e s name ctx).1 = lockErrorPage poisonedLockMsg ∨
    (∃ m, (render e s name ctx).1 = initErrorPage m) ∨
    (∃ err, (render e s name ctx).1 = renderErrorPage name err) ∨
    Store.render (getOrInit e s).1 name ctx = .ok (render e s name ctx).1 := by
  unfold render
  split
  · exact Or.inl rfl
  · split
    · exact Or.inr (Or.inl ⟨_, rfl⟩)
    · split
      · rename_i heq
        exact Or.inr (Or.inr (Or.inr (by rw [heq])))
      · exact Or.inr (Or.inr (Or.inl ⟨_, rfl⟩))

/-- C2: the render pipeline, at a built store under healthy locks: a recorded
error-tracker message short-circuits to the init-error page without touching
the template; otherwise a successful engine render is returned verbatim and a
failing one becomes the render-error page naming the template. -/
theorem c2_render_pipeline (e : Engine) (s : AppState) (st : Store) (name : String) (ctx : Ctx)
    (hb : s.templates = some st) (htp : s.teraPoisoned = false) (hep : s.errPoisoned = false) :
    (∀ m, s.teraInitError = some m → (render e s name ctx).1 = initErrorPage m) ∧
    (s.teraInitError = none →
      (∀ h, st.render name ctx = .ok h → (render e s name ctx).1 = h) ∧
      (∀ m, st.render name ctx = .error m →
        (render e s name ctx).1 = renderErrorPage name m)) := by
  have hg : getOrInit e s = (st, s) := by unfold getOrInit; rw [hb]
  refine ⟨?_, ?_⟩
  · intro m hm
    unfold render
    rw [hg]
    simp [htp, hep, hm]
  · intro hnone
    refine ⟨?_, ?_⟩
    · intro h hh
      unfold render
      rw [hg]
      simp [htp, hep, hnone, hh]
    · intro m hm
      unfold render
      rw [hg]
      simp [htp, hep, hnone, hm]

/-- C2 witness: rendering the literal demo template through the pipeline at
the built healthy state returns the engine output verbatim. -/
theorem c2_render_pipeline_witness :
    (render goodEngine builtState "plain.html" []).1 = "hello" :=
  ((c2_render_pipeline goodEngine builtState demoStore "plain.html" [] rfl rfl rfl).2
    rfl).1 "hello" rfl

/-- C3 counterexample: the claim fails on the very first render call, which
forces the lazy build; with a failing compile the call writes the failure
into the Error Tracker slot, so the slot differs before and after the call. -/
theorem c3_first_call_counterexample :
    (render badEngine initialState "index.html" []).2.teraInitError ≠
      initialState.teraInitError := by decide

/-- C3 amended: once the Template Store is built, every render call leaves
the whole shared state — Error Tracker slot and compiled set included —
exactly as it was. -/
theorem c3_render_frame_after_build (e : Engine) (s : AppState) (st : Store)
    (name : String) (ctx : Ctx) (hb : s.templates = some st) :
    (render e s name ctx).2 = s := by
  have hg : getOrInit e s = (st, s) := by unfold getOrInit; rw [hb]
  unfold render
  rw [hg]
  split
  · rfl
  · split
    · rfl
    · split <;> rfl

/-- C3 amended witness: a render call at the built healthy state returns it
unchanged. -/
theorem c3_render_frame_witness :
    (render goodEngine builtState "plain.html" []).2 = builtState :=
  c3_render_frame_after_build goodEngine builtState demoStore "plain.html" [] rfl

/-- C4: the auto-escaping policy is fixed: every store the builder produces
carries exactly the suffix list .html/.htm/.xml/.svg, output into a template
is escaped exactly when its name ends in one of those suffixes, and
concretely a context value containing a script tag renders escaped into an
.html template and literally into a .txt template. -/
theorem c4_autoescape_policy (e : Engine) (s : AppState) (name : String)
    (hnone : s.templates = none) :
    ((getOrInit e s).1).autoescape = autoescapeExts ∧
    (∀ st : Store, st.autoescape = autoescapeExts →
      (shouldEscape st name = true ↔ ∃ ext ∈ autoescapeExts, strEndsWith name ext = true)) ∧
    Store.render demoStore "page.html" [("v", Value.vStr "<script>")] =
      .ok "&lt;script&gt;" ∧
    Store.render demoStore "page.txt" [("v", Value.vStr "<script>")] = .ok "<script>" := by
  refine ⟨?_, ?_, rfl, rfl⟩
  · unfold getOrInit
    rw [hnone]
    cases h : e.compile (get_template_path s) <;> simp [h, emptyFallback]
  · intro st hst
    simp [shouldEscape, hst, List.any_eq_true]

/-- C4 witness: the demo store realizes the policy on the concrete inputs of
the claim. -/
theorem c4_autoescape_policy_witness :
    ((getOrInit goodEngine initialState).1).autoescape = autoescapeExts ∧
    Store.render demoStore "page.html" [("v", Value.vStr "<script>")] =
      .ok "&lt;script&gt;" :=
  ⟨(c4_autoescape_policy goodEngine initialState "x.html" rfl).1,
   (c4_autoescape_policy goodEngine initialState "x.html" rfl).2.2.1⟩

/-- C5: when the first lazy build fails, the failure message lands in the
Error Tracker and the store falls back to the empty-but-usable set; renders
in that state serve the diagnostic page, and a later reload whose compile
succeeds installs the new set and clears the tracker. -/
theorem c5_init_failure_fallback (e e2 : Engine) (s : AppState) (msg name : String)
    (ctx : Ctx) (ts : List (String × Template))
    (hnone : s.templates = none) (hep : s.errPoisoned = false)
    (htp : s.teraPoisoned = false)
    (hfail : e.compile (get_template_path s) = .error msg) :
    (getOrInit e s).1 = emptyFallback (get_template_path s) ∧
    (getOrInit e s).2.teraInitError = some msg ∧
    (getOrInit e s).2.templates = some (emptyFallback (get_template_path s)) ∧
    (render e (getOrInit e s).2 name ctx).1 = initErrorPage msg ∧
    (e2.compile (get_template_path s) = .ok ts →
      (watchCallback e2 (getOrInit e s).2).1.teraInitError = none ∧
      (watchCallback e2 (getOrInit e s).2).1.templates =
        some { glob := get_template_path s, templates := ts,
               autoescape := autoescapeExts }) := by
  have hg : getOrInit e s =
      (emptyFallback (get_template_path s),
        { s with teraInitError := some msg,
                 templates := some (emptyFallback (get_template_path s)) }) := by
    unfold getOrInit
    rw [hnone]
    simp [hfail, hep]
  rw [hg]
  refine ⟨rfl, rfl, rfl, ?_, ?_⟩
  · unfold render getOrInit
    simp [htp, hep]
  · intro h2
    unfold watchCallback
    simp [htp, hep, fullReloadSt, emptyFallback, h2]

/-- C5 witness: at the initial state with the always-failing engine, the
failure is tracked, the fallback serves diagnostics, and the good engine
recovers on reload. -/
theorem c5_init_failure_fallback_witness :
    (getOrInit badEngine initialState).2.teraInitError = some "oops" ∧
    (render badEngine (getOrInit badEngine initialState).2 "index.html" []).1 =
      initErrorPage "oops" ∧
    (watchCallback goodEngine (getOrInit badEngine initialState).2).1.teraInitError = none :=
  ⟨(c5_init_failure_fallback badEngine goodEngine initialState "oops" "index.html" []
      [("page.html", [Chunk.var "v"])] rfl rfl rfl rfl).2.1,
   (c5_init_failure_fallback badEngine goodEngine initialState "oops" "index.html" []
      [("page.html", [Chunk.var "v"])] rfl rfl rfl rfl).2.2.2.1,
   ((c5_init_failure_fallback badEngine goodEngine initialState "oops" "index.html" []
      [("page.html", [Chunk.var "v"])] rfl rfl rfl rfl).2.2.2.2 rfl).1⟩

/-- C6: after every watch-callback reload attempt under healthy locks, a
successful recompile clears the Error Tracker, a failing one stores the new
message, and in either case the live-reload notification fires. -/
theorem c6_watch_callback_tracker_notify (e : Engine) (s : AppState) (st : Store)
    (hb : s.templates = some st) (htp : s.teraPoisoned = false)
    (hep : s.errPoisoned = false) :
    (watchCallback e s).2 = true ∧
    (∀ st2, fullReloadSt e st = .ok st2 →
      (watchCallback e s).1.teraInitError = none ∧
      (watchCallback e s).1.templates = some st2) ∧
    (∀ m, fullReloadSt e st = .error m →
      (watchCallback e s).1.teraInitError = some m) := by
  refine ⟨rfl, ?_, ?_⟩
  · intro st2 h
    unfold watchCallback
    simp [htp, hb, h, hep]
  · intro m h
    unfold watchCallback
    simp [htp, hb, h, hep]

/-- C6 witness: at the built healthy state with the succeeding engine, the
callback notifies and clears the tracker. -/
theorem c6_watch_callback_witness :
    (watchCallback goodEngine builtState).2 = true ∧
    (watchCallback goodEngine builtState).1.teraInitError = none :=
  ⟨(c6_watch_callback_tracker_notify goodEngine builtState demoStore rfl rfl rfl).1,
   ((c6_watch_callback_tracker_notify goodEngine builtState demoStore rfl rfl rfl).2.1
      _ rfl).1⟩

/-- C7: a failing reload at a state that holds a working compiled set keeps
that set active — only the Error Tracker records the failure. -/
theorem c7_stale_serving (e : Engine) (s : AppState) (st : Store) (m : String)
    (hb : s.templates = some st) (htp : s.teraPoisoned = false)
    (hep : s.errPoisoned = false) (hfail : fullReloadSt e st = .error m) :
    (watchCallback e s).1.templates = some st ∧
    (watchCallback e s).1.teraInitError = some m := by
  unfold watchCallback
  simp [htp, hb, hfail, hep]

/-- C7 witness: the failing engine leaves the demo set in place and tracks
the failure. -/
theorem c7_stale_serving_witness :
    (watchCallback badEngine builtState).1.templates = some demoStore ∧
    (watchCallback badEngine builtState).1.teraInitError = some "oops" :=
  c7_stale_serving badEngine builtState demoStore "oops" rfl rfl rfl rfl

/-- C8: a call to init_templates made after the store is built changes
neither the built compiled set nor any later render result: the path write
does not retroactively affect the store. -/
theorem c8_late_init_templates_frame (e : Engine) (s : AppState) (st : Store)
    (p name : String) (ctx : Ctx) (hb : s.templates = some st) :
    (init_templates s p).templates = some st ∧
    (getOrInit e (init_templates s p)).1 = st ∧
    (render e (init_templates s p) name ctx).1 = (render e s name ctx).1 := by
  by_cases hpp : s.pathPoisoned
  · simp [init_templates, hpp, hb]
    unfold getOrInit
    rw [hb]
  · have h1 : init_templates s p = { s with templatePath := p } := by
      simp [init_templates, hpp]
    have hb2 : (init_templates s p).templates = some st := by rw [h1]; exact hb
    have hg2 : getOrInit e (init_templates s p) = (st, init_templates s p) := by
      unfold getOrInit; rw [hb2]
    have hg : getOrInit e s = (st, s) := by unfold getOrInit; rw [hb]
    refine ⟨hb2, by rw [hg2], ?_⟩
    unfold render
    rw [hg2, hg, h1]
    cases h2 : s.teraPoisoned <;> cases h3 : s.errPoisoned <;>
      cases h4 : s.teraInitError <;> simp [h2, h3, h4] <;>
      cases hr : st.render name ctx <;> simp [hr]

/-- C8 witness: writing a new path at the built state leaves the demo set
and the render output unchanged. -/
theorem c8_late_init_templates_witness :
    (init_templates builtState "other/**/*").templates = some demoStore ∧
    (render goodEngine (init_templates builtState "other/**/*") "plain.html" []).1 =
      (render goodEngine builtState "plain.html" []).1 :=
  ⟨(c8_late_init_templates_frame goodEngine builtState demoStore "other/**/*"
      "plain.html" [] rfl).1,
   (c8_late_init_templates_frame goodEngine builtState demoStore "other/**/*"
      "plain.html" [] rfl).2.2⟩

/-- A timeline whose adjacent events all fall inside the quiet period keeps
restarting the countdown, so exactly one reload fires, after the last event. -/
theorem debounceReloads_coalesce (w : Nat) :
    ∀ l : List Nat, l ≠ [] → l.Chain' (fun a b => b - a < w) →
      debounceReloads w l = 1
  | [], h, _ => absurd rfl h
  | [_], _, _ => rfl
  | a :: b :: rest, _, hch => by
    rw [List.chain'_cons] at hch
    have h1 : ¬ w ≤ b - a := not_le.mpr hch.1
    have ih := debounceReloads_coalesce w (b :: rest) (by simp) hch.2
    simp [debounceReloads, h1, ih]

/-- A timeline whose adjacent events are all farther apart than the quiet
period lets every countdown elapse, so every event fires its own reload. -/
theorem debounceReloads_separate (w : Nat) :
    ∀ l : List Nat, l.Chain' (fun a b => w < b - a) →
      debounceReloads w l = l.length
  | [], _ => rfl
  | [_], _ => rfl
  | a :: b :: rest, hch => by
    rw [List.chain'_cons] at hch
    have h1 : w ≤ b - a := le_of_lt hch.1
    have ih := debounceReloads_separate w (b :: rest) hch.2
    simp [debounceReloads, h1, ih]
    omega

/-- C9: debounce coalescing with the 100 ms window of the source: any
nonempty time-ordered event list whose consecutive events are less than the
window apart produces exactly one reload, and one whose consecutive events
are more than the window apart produces one reload per event. -/
theorem c9_debounce_coalescing (l : List Nat) (hne : 1 ≤ l.length) :
    (l.Chain' (fun a b => b - a < watchDebounceWindowMs) →
      debounceReloads watchDebounceWindowMs l = 1) ∧
    (l.Chain' (fun a b => watchDebounceWindowMs < b - a) →
      debounceReloads watchDebounceWindowMs l = l.length) := by
  refine ⟨?_, ?_⟩
  · intro h
    refine debounceReloads_coalesce _ l ?_ h
    intro he
    rw [he] at hne
    simp at hne
  · intro h
    exact debounceReloads_separate _ l h

/-- C9 witness: three events 50 ms apart coalesce into one reload; three
events 101 ms apart produce three reloads. -/
theorem c9_debounce_coalescing_witness :
    debounceReloads watchDebounceWindowMs [0, 50, 90] = 1 ∧
    debounceReloads watchDebounceWindowMs [0, 101, 202] = 3 := by
  refine ⟨?_, ?_⟩
  · exact (c9_debounce_coalescing [0, 50, 90] (by decide)).1
      (by norm_num [List.chain'_cons, List.chain'_singleton, watchDebounceWindowMs])
  · exact ((c9_debounce_coalescing [0, 101, 202] (by decide)).2
      (by norm_num [List.chain'_cons, List.chain'_singleton, watchDebounceWindowMs])).trans rfl

/-- C10: an empty configured pattern is treated as unset: after
init_templates with the empty string the path lookup yields the built-in
default pattern, exactly as if init_templates had never been called, and at
the pristine initial state the call is literally the identity, so the store
builds from the same default pattern either way. -/
theorem c10_empty_path_default (s : AppState) (e : Engine)
    (hpp : s.pathPoisoned = false) :
    get_template_path (init_templates s "") = "templates/**/*" ∧
    get_template_path initialState = "templates/**/*" ∧
    init_templates initialState "" = initialState ∧
    getOrInit e (init_templates initialState "") = getOrInit e initialState := by
  refine ⟨?_, rfl, rfl, rfl⟩
  simp [init_templates, get_template_path, hpp]

/-- C10 witness: the equivalence at the initial state with a concrete engine. -/
theorem c10_empty_path_default_witness :
    get_template_path (init_templates initialState "") = "templates/**/*" ∧
    init_templates initialState "" = initialState :=
  ⟨(c10_empty_path_default initialState goodEngine rfl).1,
   (c10_empty_path_default initialState goodEngine rfl).2.2.1⟩

end Wenzetu
